import Mathlib

/-!
Shallow embedding of the HR allocation application
(src/hr_allocation_flask_app.py) and verification of its specification.

The application is a single-file Flask app.  We embed its data model
(User, Project, Resource records), its authentication endpoints
(api_register, api_login, api_me, api_logout), the project listing
endpoint (api_get_projects) and the utilization statistics endpoint
(api_resource_stats) as pure Lean functions over explicit state:

* the SQL tables become Lean lists of records;
* the Flask session becomes an explicit `Option Nat` (the stored user id);
* werkzeug password hashing is external, so `generate_password_hash` and
  `check_password_hash` are taken as function parameters;
* Python truthiness on the JSON string fields (`if not (name and email
  and password)`) is modelled by comparison with the empty string, which
  covers both an absent field (None) and an empty one;
* Python `round` on the float quotient `sum(...) / len(...)` is modelled
  in exact integer arithmetic by `bankersRoundDiv` (round half to even,
  the semantics of the Python built-in `round`).
-/

namespace HRAlloc

/-- JSON-like values appearing in serialized records. -/
inductive Value where
  | i : Int → Value
  | s : String → Value
  | null : Value
deriving Repr, DecidableEq

/-- Serialization of an optional string column (None becomes JSON null). -/
def optStr : Option String → Value
  | none => Value.null
  | some s => Value.s s

/-- Embedding of the SQLAlchemy model `User` (id, name, unique email,
password_hash, position, created_at).  The creation timestamp is kept as
its serialized ISO string, which is all the code ever does with it. -/
structure User where
  id : Nat
  name : String
  email : String
  password_hash : String
  position : String
  created_at : String
deriving Repr, DecidableEq

/-- Embedding of `User.to_dict`: the serialized public representation,
exactly the five fields the Python method emits, in order. -/
def User.to_dict (u : User) : List (String × Value) :=
  [("id", Value.i u.id),
   ("name", Value.s u.name),
   ("email", Value.s u.email),
   ("position", Value.s u.position),
   ("createdAt", Value.s u.created_at)]

/-- Embedding of the SQLAlchemy model `Project`.  The `updated_at`
datetime is modelled as a natural number so that the ordering used by
`api_get_projects` is explicit. -/
structure Project where
  id : Nat
  name : String
  manager : Option String
  start_date : Option String
  end_date : Option String
  status : String
  updated_at : Nat
deriving Repr, DecidableEq

/-- Embedding of `Project.to_dict`. -/
def Project.to_dict (p : Project) : List (String × Value) :=
  [("id", Value.i p.id),
   ("name", Value.s p.name),
   ("manager", optStr p.manager),
   ("startDate", optStr p.start_date),
   ("endDate", optStr p.end_date),
   ("status", Value.s p.status),
   ("updatedAt", Value.i p.updated_at)]

/-- Embedding of the SQLAlchemy model `Resource`.  `availability` is an
integer column with no range validation, so it is an `Int`. -/
structure Resource where
  id : Nat
  name : String
  position : String
  availability : Int
  current_project : Option String
deriving Repr, DecidableEq

/-- Embedding of `Resource.to_dict`. -/
def Resource.to_dict (r : Resource) : List (String × Value) :=
  [("id", Value.i r.id),
   ("name", Value.s r.name),
   ("position", Value.s r.position),
   ("availability", Value.i r.availability),
   ("currentProject", optStr r.current_project)]

/-- Result of an API endpoint: either a JSON success payload, or a
failure with its message and HTTP status code, modelling the
`jsonify(success=False, message=...), status` responses. -/
inductive ApiResult (α : Type) where
  | ok : α → ApiResult α
  | err : String → Nat → ApiResult α
deriving Repr, DecidableEq

/-- The Python built-in `round` applied to the exact quotient `S / n`
(for `n > 0`): round to the nearest integer, resolving exact halves to
the even neighbour (bankers rounding), in exact integer arithmetic.
`Int.fdiv` is floor division, matching Python `//`. -/
def bankersRoundDiv (S : Int) (n : Nat) : Int :=
  let f := Int.fdiv S n
  let r := S - f * n
  if 2 * r < n then f
  else if (n : Int) < 2 * r then f + 1
  else if f % 2 = 0 then f else f + 1

/-- The statistics record returned by `/api/resources/stats/utilization`,
with the field names of the JSON payload. -/
structure Stats where
  totalResources : Nat
  allocatedResources : Nat
  availableResources : Nat
  averageUtilization : Int
  overallocated : Nat
  totalProjects : Nat
deriving Repr, DecidableEq

/-- Embedding of the route `api_resource_stats`
(`/api/resources/stats/utilization`).  Each SQL count becomes a filter
over the Resource table; `avg_util` is 0 when the table is empty
(`if resources:`), otherwise `round(sum(100 - r.availability) / len)`. -/
def api_resource_stats (resources : List Resource) (projects : List Project) :
    Stats :=
  let total := resources.length
  let allocated := (resources.filter (fun r => r.availability < 100)).length
  let available := (resources.filter (fun r => 0 < r.availability)).length
  let avg_util : Int :=
    if resources.isEmpty then 0
    else bankersRoundDiv ((resources.map (fun r => 100 - r.availability)).sum)
      resources.length
  let overallocated := (resources.filter (fun r => r.availability ≤ 0)).length
  { totalResources := total
    allocatedResources := allocated
    availableResources := available
    averageUtilization := avg_util
    overallocated := overallocated
    totalProjects := projects.length }

/-- The Identity Store: the User table, in insertion order. -/
abbrev IdentityStore := List User

/-- Embedding of `User.query.filter_by(email=email).first()`: the first
stored user whose email matches, if any. -/
def findByEmail (store : IdentityStore) (email : String) : Option User :=
  store.find? (fun u => u.email == email)

/-- Number of User records carrying a given email. -/
def countEmail (store : IdentityStore) (email : String) : Nat :=
  (store.filter (fun u => u.email == email)).length

/-- Embedding of the route `api_register` (`POST /api/auth/register`).
Parameters `gen_hash` (werkzeug `generate_password_hash`), `newId` (the
id the database assigns) and `created` (the creation timestamp) stand
for the external collaborators.  A missing or empty string field is
falsy in Python, hence the comparisons with `""`; `position` defaults
to Developer when the position field is falsy.  Returns
the response together with the resulting Identity Store. -/
def api_register (gen_hash : String → String) (newId : Nat) (created : String)
    (store : IdentityStore) (name email password position0 : String) :
    ApiResult (List (String × Value)) × IdentityStore :=
  let position := if position0 = "" then "Developer" else position0
  if name = "" ∨ email = "" ∨ password = "" then
    (ApiResult.err "Name, email and password are required" 400, store)
  else if (findByEmail store email).isSome then
    (ApiResult.err "Email already registered" 400, store)
  else
    let user : User :=
      { id := newId, name := name, email := email
        password_hash := gen_hash password, position := position
        created_at := created }
    (ApiResult.ok user.to_dict, store ++ [user])

/-- Embedding of the route `api_login` (`POST /api/auth/login`).
`check_hash` stands for werkzeug `check_password_hash` (stored hash,
candidate password).  The session is the `Option Nat` holding
the user_id session key; on success it is set to the user id. -/
def api_login (check_hash : String → String → Bool)
    (store : IdentityStore) (sess : Option Nat) (email password : String) :
    ApiResult (List (String × Value)) × Option Nat :=
  if email = "" ∨ password = "" then
    (ApiResult.err "Email and password required" 400, sess)
  else
    match findByEmail store email with
    | none => (ApiResult.err "Invalid credentials" 401, sess)
    | some user =>
      if check_hash user.password_hash password then
        (ApiResult.ok user.to_dict, some user.id)
      else
        (ApiResult.err "Invalid credentials" 401, sess)

/-- Embedding of the route `api_me` (`GET /api/auth/me`).  Python
`if not uid` is true both when the session key is absent and when the
stored id is 0 (an integer 0 is falsy), so both cases are modelled. -/
def api_me (store : IdentityStore) (sess : Option Nat) :
    ApiResult (List (String × Value)) :=
  match sess with
  | none => ApiResult.err "Not authenticated" 401
  | some uid =>
    if uid = 0 then ApiResult.err "Not authenticated" 401
    else
      match store.find? (fun u => u.id == uid) with
      | none => ApiResult.err "User not found" 404
      | some user => ApiResult.ok user.to_dict

/-- Embedding of the route `api_logout` (`POST /api/auth/logout`):
the session user_id key is dropped, then an unconditional success response. -/
def api_logout (sess : Option Nat) : ApiResult Unit × Option Nat :=
  (ApiResult.ok (), none)

/-- Descending comparison on the last-updated timestamp, the Boolean
form of `Project.updated_at.desc()`. -/
def updatedDescLe (a b : Project) : Bool :=
  b.updated_at ≤ a.updated_at

/-- Embedding of the route `api_get_projects` (`GET /api/projects`):
all Project records ordered by `updated_at` descending, serialized. -/
def api_get_projects (projects : List Project) :
    ApiResult (List (List (String × Value))) :=
  ApiResult.ok ((projects.mergeSort updatedDescLe).map Project.to_dict)

/-- Embedding of the route `api_get_resources` (`GET /api/resources`):
all Resource records in table order, serialized. -/
def api_get_resources (resources : List Resource) :
    ApiResult (List (List (String × Value))) :=
  ApiResult.ok (resources.map Resource.to_dict)

/-- Rounding as the specification words it, stated from the spec for
comparison with the code: standard rounding of the exact quotient
`S / n` with halves rounded away from zero. -/
def spec_roundDiv (S : Int) (n : Nat) : Int :=
  if 0 ≤ S then (2 * S + n).fdiv (2 * n)
  else -((2 * (-S) + n).fdiv (2 * n))

/-- Average utilization as the specification words it, stated from the
spec for comparison with the code: round( sum(100 - availability) /
totalResources ) with halves away from zero, and 0 on an empty set. -/
def spec_averageUtilization (rs : List Resource) : Int :=
  if rs.length = 0 then 0
  else spec_roundDiv ((rs.map (fun r => 100 - r.availability)).sum) rs.length

/-! Concrete sample records used by counterexamples and witnesses. -/

/-- Sample resource with availability 0. -/
def exR0 : Resource :=
  { id := 1, name := "Benjamin Godswill", position := "Project Manager"
    availability := 0, current_project := some "E-commerce Platform" }

/-- Sample resource with availability 20. -/
def exR20 : Resource :=
  { id := 2, name := "Akinleye Tolu", position := "Senior Developer"
    availability := 20, current_project := some "Mobile Banking App" }

/-- Sample resource with availability 100. -/
def exR100 : Resource :=
  { id := 3, name := "Oluleye Philip", position := "UX Designer"
    availability := 100, current_project := none }

/-- Sample resource with availability 99. -/
def exR99 : Resource :=
  { id := 4, name := "Dev A", position := "Developer"
    availability := 99, current_project := none }

/-- Sample resource with availability 150, above the nominal range,
which the code accepts since no validation exists. -/
def exR150 : Resource :=
  { id := 5, name := "Dev B", position := "Developer"
    availability := 150, current_project := none }

/-- Sample hash function standing for `generate_password_hash`. -/
def exGenHash : String → String := fun p => "hash:" ++ p

/-- Sample hash check standing for `check_password_hash`: accepts
exactly the password whose `exGenHash` image is the stored hash. -/
def exCheckHash : String → String → Bool := fun h p => h == "hash:" ++ p

/-- Sample registered user. -/
def exUserA : User :=
  { id := 1, name := "Ada", email := "ada@example.com"
    password_hash := "hash:pw1", position := "Developer"
    created_at := "2023-01-01T00:00:00" }

/-- Sample Identity Store holding exactly `exUserA`. -/
def exStore : IdentityStore := [exUserA]

/-! Helper lemmas. -/

/-- The predicates `availability > 0` and `availability <= 0` used by
the stats queries partition any Resource list. -/
lemma length_filter_pos_add_nonpos (rs : List Resource) :
    (rs.filter (fun r => 0 < r.availability)).length
    + (rs.filter (fun r => r.availability ≤ 0)).length = rs.length := by
  induction rs with
  | nil => rfl
  | cons r t ih =>
    simp only [List.filter_cons, decide_eq_true_eq, List.length_cons]
    split_ifs <;> (try simp only [List.length_cons]) <;> omega

/-- When every availability is at most 100, the three predicates
`availability <= 0`, `availability in 1..99` and `availability = 100`
partition the Resource list. -/
lemma length_filter_partition_le100 (rs : List Resource)
    (h : ∀ r ∈ rs, r.availability ≤ 100) :
    (rs.filter (fun r => r.availability ≤ 0)).length
    + (rs.filter (fun r => 1 ≤ r.availability ∧ r.availability ≤ 99)).length
    + (rs.filter (fun r => r.availability = 100)).length = rs.length := by
  induction rs with
  | nil => rfl
  | cons r t ih =>
    have hr : r.availability ≤ 100 := h r (List.mem_cons_self r t)
    have ht := ih (fun x hx => h x (List.mem_cons_of_mem r hx))
    simp only [List.filter_cons, decide_eq_true_eq, List.length_cons]
    split_ifs <;> (try simp only [List.length_cons]) <;> omega

/-- Characterization of `bankersRoundDiv`: for a positive denominator
its result is a nearest integer to the exact quotient `S / n`, and on
an exact half it is the even neighbour. -/
lemma bankersRoundDiv_spec (S : Int) (n : Nat) (hn : 0 < n) :
    2 * (S - bankersRoundDiv S n * n).natAbs ≤ n
    ∧ (2 * (S - bankersRoundDiv S n * n).natAbs = n
        → bankersRoundDiv S n % 2 = 0) := by
  have hb : (0 : Int) ≤ (n : Int) := Int.natCast_nonneg n
  have hn' : (0 : Int) < (n : Int) := by exact_mod_cast hn
  have hfd : Int.fdiv S n = S / n := Int.fdiv_eq_ediv S hb
  have hdm : (n : Int) * (S / n) + S % n = S := Int.ediv_add_emod S n
  have hm0 : 0 ≤ S % (n : Int) := Int.emod_nonneg S (by omega)
  have hm1 : S % (n : Int) < n := Int.emod_lt_of_pos S hn'
  have h1 : S - S / (n : Int) * n = S % n := by rw [Int.emod_def]; ring
  have h2 : S - (S / (n : Int) + 1) * n = S % n - n := by
    rw [Int.emod_def]; ring
  unfold bankersRoundDiv
  simp only [hfd]
  split_ifs <;> simp only [h1, h2] at * <;> omega

/-! Further helper definitions and lemmas for the Authenticator claims. -/

/-- The User record built by a successful `api_register`. -/
def mkUser (gen_hash : String → String) (i : Nat) (c : String)
    (name email password position0 : String) : User :=
  { id := i, name := name, email := email
    password_hash := gen_hash password
    position := if position0 = "" then "Developer" else position0
    created_at := c }

/-- No user carries the email exactly when the lookup fails. -/
lemma findByEmail_eq_none (store : IdentityStore) (email : String) :
    findByEmail store email = none ↔ ∀ u ∈ store, u.email ≠ email := by
  simp [findByEmail, List.find?_eq_none]

/-- Some user carries the email exactly when the lookup succeeds. -/
lemma findByEmail_isSome (store : IdentityStore) (email : String) :
    (findByEmail store email).isSome ↔ ∃ u ∈ store, u.email = email := by
  simp [findByEmail, List.find?_isSome]

/-- The email count is zero exactly when no user carries the email. -/
lemma countEmail_eq_zero (store : IdentityStore) (email : String) :
    countEmail store email = 0 ↔ ∀ u ∈ store, u.email ≠ email := by
  simp [countEmail, List.length_eq_zero, List.filter_eq_nil_iff]

/-- The email count distributes over store concatenation. -/
lemma countEmail_append (s t : IdentityStore) (email : String) :
    countEmail (s ++ t) email = countEmail s email + countEmail t email := by
  simp [countEmail, List.filter_append]

/-- C10: for every collection of Resource records, including ones with
negative or greater-than-100 availability, the returned statistics
satisfy availableResources + overallocated = totalResources, because
availability > 0 and availability <= 0 partition the integers. -/
theorem stats_available_add_overallocated (rs : List Resource)
    (ps : List Project) :
    (api_resource_stats rs ps).availableResources
    + (api_resource_stats rs ps).overallocated
    = (api_resource_stats rs ps).totalResources := by
  simpa [api_resource_stats] using length_filter_pos_add_nonpos rs

/-- C5: on an empty Resource collection the statistics endpoint returns
averageUtilization = 0; the quotient is guarded by the emptiness test,
so no division by zero can occur. -/
theorem stats_empty_avg_zero (ps : List Project) :
    (api_resource_stats [] ps).averageUtilization = 0 := rfl

/-- C7: logout never fails and is idempotent; it clears the session
association in every prior state, and a who-am-I call on the resulting
session fails with the AuthError response (message Not authenticated,
status 401). -/
theorem logout_idempotent_me_fails (store : IdentityStore)
    (sess : Option Nat) :
    (api_logout sess).1 = ApiResult.ok ()
    ∧ (api_logout sess).2 = none
    ∧ api_logout (api_logout sess).2 = api_logout sess
    ∧ api_me store (api_logout sess).2
      = ApiResult.err "Not authenticated" 401 :=
  ⟨rfl, rfl, rfl, rfl⟩

/-- C8: the serialized User value returned by register, login and
who-am-I consists of exactly the fields id, name, email, position and
createdAt, and it is independent of the stored password hash, so
neither the raw password nor its hash can appear through it. -/
theorem user_to_dict_public_fields (u : User) :
    (User.to_dict u).map Prod.fst
      = ["id", "name", "email", "position", "createdAt"]
    ∧ ∀ h : String,
        User.to_dict { u with password_hash := h } = User.to_dict u :=
  ⟨rfl, fun _ => rfl⟩

/-- C9: the list-projects endpoint always succeeds and returns all
Project records, serialized, ordered by the last-updated timestamp
descending: the returned order is a permutation of the table that is
pairwise non-increasing in updated_at. -/
theorem projects_listed_sorted_desc (ps : List Project) :
    (ps.mergeSort updatedDescLe).Perm ps
    ∧ (ps.mergeSort updatedDescLe).Pairwise
        (fun a b => b.updated_at ≤ a.updated_at)
    ∧ api_get_projects ps
      = ApiResult.ok ((ps.mergeSort updatedDescLe).map Project.to_dict) := by
  refine ⟨List.mergeSort_perm ps _, ?_, rfl⟩
  have hs : (ps.mergeSort updatedDescLe).Pairwise
      (fun a b => updatedDescLe a b) := by
    apply List.sorted_mergeSort
    · intro a b c hab hbc
      simp only [updatedDescLe, decide_eq_true_eq] at *
      omega
    · intro a b
      simp only [updatedDescLe]
      by_cases h : b.updated_at ≤ a.updated_at <;> simp [h] <;> omega
  exact hs.imp (fun h => by simpa [updatedDescLe] using h)

/-- C1 counterexample: for a Resource with availability 150 (allowed,
since no validation exists) the three buckets overallocated,
availability in 1..99 and availability = 100 miss the record, so their
sum is 0 while totalResources is 1; the claim fails as stated. -/
theorem stats_bucket_partition_counterexample :
    ¬((api_resource_stats [exR150] []).overallocated
      + (([exR150] : List Resource).filter
          (fun r => 1 ≤ r.availability ∧ r.availability ≤ 99)).length
      + (([exR150] : List Resource).filter
          (fun r => r.availability = 100)).length
      = (api_resource_stats [exR150] []).totalResources) := by decide

/-- C1 amended: for every collection of Resource records in which each
availability is at most 100, overallocated plus the count with
availability in 1..99 plus the count with availability = 100 equals
totalResources. -/
theorem stats_bucket_partition (rs : List Resource) (ps : List Project)
    (h : ∀ r ∈ rs, r.availability ≤ 100) :
    (api_resource_stats rs ps).overallocated
    + (rs.filter (fun r => 1 ≤ r.availability ∧ r.availability ≤ 99)).length
    + (rs.filter (fun r => r.availability = 100)).length
    = (api_resource_stats rs ps).totalResources := by
  simpa [api_resource_stats] using length_filter_partition_le100 rs h

/-- C1 witness: the amended partition identity at the seeded collection
with availabilities 0, 20 and 100. -/
theorem stats_bucket_partition_witness :
    (∀ r ∈ ([exR0, exR20, exR100] : List Resource), r.availability ≤ 100)
    ∧ (api_resource_stats [exR0, exR20, exR100] []).overallocated
      + (([exR0, exR20, exR100] : List Resource).filter
          (fun r => 1 ≤ r.availability ∧ r.availability ≤ 99)).length
      + (([exR0, exR20, exR100] : List Resource).filter
          (fun r => r.availability = 100)).length
      = (api_resource_stats [exR0, exR20, exR100] []).totalResources :=
  ⟨by decide, stats_bucket_partition [exR0, exR20, exR100] [] (by decide)⟩

/-- C2 counterexample: for availabilities 100 and 99 the exact mean
utilization is 1/2; rounding halves away from zero as the claim states
gives 1, but the code (Python round, half to even) returns 0. -/
theorem averageUtilization_rounding_counterexample :
    (api_resource_stats [exR100, exR99] []).averageUtilization = 0
    ∧ spec_averageUtilization [exR100, exR99] = 1 := by decide

/-- C2 amended: for every non-empty collection, averageUtilization is a
nearest integer to the exact rational mean sum(100 - availability) /
totalResources, and an exact half is rounded to the even neighbour
(the semantics of the Python built-in round), not away from zero. -/
theorem averageUtilization_nearest_even (rs : List Resource)
    (ps : List Project) (h : rs ≠ []) :
    2 * (((rs.map (fun r => 100 - r.availability)).sum
        - (api_resource_stats rs ps).averageUtilization * rs.length).natAbs)
      ≤ rs.length
    ∧ (2 * (((rs.map (fun r => 100 - r.availability)).sum
        - (api_resource_stats rs ps).averageUtilization * rs.length).natAbs)
        = rs.length
      → Even (api_resource_stats rs ps).averageUtilization) := by
  have hne : rs.isEmpty = false := by
    cases rs with
    | nil => exact absurd rfl h
    | cons a t => rfl
  have hlen : 0 < rs.length := List.length_pos.mpr h
  have havg : (api_resource_stats rs ps).averageUtilization
      = bankersRoundDiv ((rs.map (fun r => 100 - r.availability)).sum)
          rs.length := by
    simp [api_resource_stats, hne]
  rw [havg]
  have hs := bankersRoundDiv_spec
    ((rs.map (fun r => 100 - r.availability)).sum) rs.length hlen
  exact ⟨hs.1, fun he => Int.even_iff.mpr (hs.2 he)⟩

/-- C2 witness: the amended rounding property at the singleton
collection with availability 20 (mean utilization exactly 80). -/
theorem averageUtilization_nearest_even_witness :
    2 * ((([exR20] : List Resource).map (fun r => 100 - r.availability)).sum
        - (api_resource_stats [exR20] []).averageUtilization
          * ([exR20] : List Resource).length).natAbs
      ≤ ([exR20] : List Resource).length
    ∧ (2 * ((([exR20] : List Resource).map
          (fun r => 100 - r.availability)).sum
        - (api_resource_stats [exR20] []).averageUtilization
          * ([exR20] : List Resource).length).natAbs
        = ([exR20] : List Resource).length
      → Even (api_resource_stats [exR20] []).averageUtilization) :=
  averageUtilization_nearest_even [exR20] [] (by decide)

/-- C6 counterexample: on the collection with availabilities 0, 20 and
100 the code returns availableResources = 2 (both 20 and 100 are
positive), so the claimed availableResources = 1 fails. -/
theorem stats_sample_counterexample :
    ¬((api_resource_stats [exR0, exR20, exR100] []).averageUtilization = 60
      ∧ (api_resource_stats [exR0, exR20, exR100] []).allocatedResources = 2
      ∧ (api_resource_stats [exR0, exR20, exR100] []).availableResources = 1
      ∧ (api_resource_stats [exR0, exR20, exR100] []).overallocated = 1) := by
  decide

/-- C6 amended: for every collection whose availabilities are exactly
0, 20 and 100, the statistics are averageUtilization = 60,
allocatedResources = 2, availableResources = 2 and overallocated = 1. -/
theorem stats_sample (rs : List Resource) (ps : List Project)
    (h : rs.map (fun r => r.availability) = [0, 20, 100]) :
    (api_resource_stats rs ps).averageUtilization = 60
    ∧ (api_resource_stats rs ps).allocatedResources = 2
    ∧ (api_resource_stats rs ps).availableResources = 2
    ∧ (api_resource_stats rs ps).overallocated = 1 := by
  obtain - | ⟨r1, rs⟩ := rs; · simp at h
  obtain - | ⟨r2, rs⟩ := rs; · simp at h
  obtain - | ⟨r3, rs⟩ := rs; · simp at h
  obtain - | ⟨r4, rs⟩ := rs
  case cons.cons.cons.cons => simp at h
  simp only [List.map_cons, List.map_nil, List.cons.injEq, and_true] at h
  obtain ⟨h1, h2, h3⟩ := h
  refine ⟨?_, ?_, ?_, ?_⟩ <;>
    simp [api_resource_stats, List.filter_cons, h1, h2, h3] <;>
    (try decide)

/-- C6 witness: the amended statistics at the concrete seeded
collection. -/
theorem stats_sample_witness :
    (api_resource_stats [exR0, exR20, exR100] []).averageUtilization = 60
    ∧ (api_resource_stats [exR0, exR20, exR100] []).allocatedResources = 2
    ∧ (api_resource_stats [exR0, exR20, exR100] []).availableResources = 2
    ∧ (api_resource_stats [exR0, exR20, exR100] []).overallocated = 1 :=
  stats_sample [exR0, exR20, exR100] [] (by decide)

/-- C3 counterexample: with an empty password the claim condition holds
(a user with the email exists and the empty password does not verify
against its hash), yet login answers with the ValidationError response
(message Email and password required, status 400) instead of the
claimed AuthError (message Invalid credentials, status 401). -/
theorem login_indistinguishable_counterexample :
    (findByEmail exStore "ada@example.com" = some exUserA
      ∧ exCheckHash exUserA.password_hash "" = false)
    ∧ (api_login exCheckHash exStore none "ada@example.com" "").1
      = ApiResult.err "Email and password required" 400 := by
  exact ⟨⟨rfl, rfl⟩, rfl⟩

/-- C3 amended: whenever email and password are both non-empty (so the
request passes the field-presence validation), login answers with one
and the same failure, message Invalid credentials with status 401, both
when no user carries the email and when a user does but the password
fails the hash check; the two cases are therefore indistinguishable to
the caller, for every Identity Store state and session. -/
theorem login_indistinguishable (check_hash : String → String → Bool)
    (store : IdentityStore) (sess : Option Nat) (email password : String)
    (he : email ≠ "") (hp : password ≠ "")
    (h : findByEmail store email = none
      ∨ ∃ u, findByEmail store email = some u
          ∧ check_hash u.password_hash password = false) :
    (api_login check_hash store sess email password).1
      = ApiResult.err "Invalid credentials" 401 := by
  have hval : ¬(email = "" ∨ password = "") := by
    push_neg; exact ⟨he, hp⟩
  simp only [api_login]
  rw [if_neg hval]
  rcases h with h | ⟨u, hu, hv⟩
  · rw [h]
  · rw [hu]
    simp [hv]

/-- C3 witness: a store holding one user; login with the right email
but the wrong password yields the Invalid credentials failure. -/
theorem login_indistinguishable_witness :
    (api_login exCheckHash exStore none "ada@example.com" "wrong").1
      = ApiResult.err "Invalid credentials" 401 :=
  login_indistinguishable exCheckHash exStore none "ada@example.com" "wrong"
    (by decide) (by decide) (Or.inr ⟨exUserA, rfl, rfl⟩)

/-- C4: with name, email and password all present, registering an email
already in the Identity Store fails with the conflict response and
leaves the store unchanged; registering a fresh email succeeds and
appends exactly one record; hence registering the same email twice
into a store not yet holding it leaves exactly one record with that
email, the second call having failed. -/
theorem register_conflict_unique (gen_hash : String → String)
    (id1 id2 : Nat) (t1 t2 : String) (store : IdentityStore)
    (name email password position0 : String)
    (hn : name ≠ "") (he : email ≠ "") (hp : password ≠ "") :
    ((∃ u ∈ store, u.email = email) →
      api_register gen_hash id1 t1 store name email password position0
        = (ApiResult.err "Email already registered" 400, store))
    ∧ ((¬∃ u ∈ store, u.email = email) →
      ∃ nu : User, nu.email = email
        ∧ api_register gen_hash id1 t1 store name email password position0
          = (ApiResult.ok nu.to_dict, store ++ [nu]))
    ∧ (countEmail store email = 0 →
      countEmail
        (api_register gen_hash id2 t2
          (api_register gen_hash id1 t1 store name email password
            position0).2
          name email password position0).2 email = 1
      ∧ (api_register gen_hash id2 t2
          (api_register gen_hash id1 t1 store name email password
            position0).2
          name email password position0).1
        = ApiResult.err "Email already registered" 400) := by
  have hval : ¬(name = "" ∨ email = "" ∨ password = "") := by
    push_neg; exact ⟨hn, he, hp⟩
  have reg_conflict : ∀ (s : IdentityStore) (i : Nat) (c : String),
      (∃ u ∈ s, u.email = email) →
      api_register gen_hash i c s name email password position0
        = (ApiResult.err "Email already registered" 400, s) := by
    intro s i c hex
    have hs : (findByEmail s email).isSome = true :=
      (findByEmail_isSome s email).mpr hex
    simp only [api_register]
    rw [if_neg hval, if_pos hs]
  have reg_ok : ∀ (s : IdentityStore) (i : Nat) (c : String),
      (∀ u ∈ s, u.email ≠ email) →
      api_register gen_hash i c s name email password position0
        = (ApiResult.ok
            (User.to_dict (mkUser gen_hash i c name email password
              position0)),
           s ++ [mkUser gen_hash i c name email password position0]) := by
    intro s i c hnone
    have hs : findByEmail s email = none :=
      (findByEmail_eq_none s email).mpr hnone
    simp only [api_register, mkUser]
    rw [if_neg hval, hs]
    rfl
  refine ⟨reg_conflict store id1 t1, ?_, ?_⟩
  · intro hnex
    have hnone : ∀ u ∈ store, u.email ≠ email := by
      intro u hu hc
      exact hnex ⟨u, hu, hc⟩
    exact ⟨mkUser gen_hash id1 t1 name email password position0, rfl,
      reg_ok store id1 t1 hnone⟩
  · intro hzero
    have hnone : ∀ u ∈ store, u.email ≠ email :=
      (countEmail_eq_zero store email).mp hzero
    have h1 := reg_ok store id1 t1 hnone
    rw [h1]
    have hmem : ∃ u ∈ store
        ++ [mkUser gen_hash id1 t1 name email password position0],
        u.email = email :=
      ⟨mkUser gen_hash id1 t1 name email password position0,
        by simp, rfl⟩
    rw [reg_conflict _ id2 t2 hmem]
    refine ⟨?_, rfl⟩
    rw [countEmail_append, hzero]
    simp [countEmail, mkUser]

/-- C4 witness: registering the same email twice into an empty store
leaves exactly one record with that email. -/
theorem register_conflict_unique_witness :
    countEmail
      (api_register exGenHash 2 "t2"
        (api_register exGenHash 1 "t1" [] "Ada" "ada@example.com" "pw1"
          "").2
        "Ada" "ada@example.com" "pw1" "").2 "ada@example.com" = 1 :=
  ((register_conflict_unique exGenHash 1 2 "t1" "t2" [] "Ada"
      "ada@example.com" "pw1" "" (by decide) (by decide) (by decide)).2.2
    (by decide)).1

end HRAlloc
